import Mathlib

/-!
Shallow embedding of the blueshift-amm constant-product pool program
(src/state.rs and src/instructions/{initialize,deposit,withdraw,swap}.rs).

Modelling conventions:
* `Pubkey` is a list of byte values (32 bytes in practice); the all-zero
  key `[0u8; 32]` (`Pubkey::default()`) is `zeroPubkey`.
* Machine integers are `Nat` (u8/u16/u64) or `Int` (i64); the program only
  compares and copies them, so no wraparound arithmetic arises here.
* Fallible Rust functions returning `Result<_, ProgramError>` become
  `Except ProgramError _`.
* External services (CPI transfers, mint, burn, account creation) are
  modelled as emitted `Effect`s: a handler returns `.ok effects` on the
  success path, and `.error e` before any effect happens on a rejection
  path, matching the code where every validation precedes every `invoke`.
* The external `constant_product_curve` crate and the external
  `find_program_address` primitive are opaque parameters of the handlers:
  the handlers only call them and pattern-match the result, which is all
  the code does.
-/

/-- A 32-byte account address, modelled as its list of byte values. -/
abbrev Pubkey := List Nat

/-- `Pubkey::default()`, the all-zero address. -/
def zeroPubkey : Pubkey := List.replicate 32 0

/-- The `ProgramError` variants the five source files produce. -/
inductive ProgramError where
  | invalidAccountData
  | invalidAccountOwner
  | invalidArgument
  | invalidInstructionData
  | accountAlreadyInit
  | notEnoughAccountKeys
  | custom (code : Nat)
  deriving DecidableEq, Repr

/-- The `Config` record of src/state.rs (typed view of the 108-byte
account data). `state` is the raw u8 ordinal of `AmmState`
(Uninitialized = 0, Initialized = 1, Disabled = 2, WithdrawOnly = 3);
`seed` is the u64 decoded from its little-endian bytes, `fee` the u16,
`config_bump` the single byte of the `[u8; 1]` field. -/
structure Config where
  state : Nat
  seed : Nat
  authority : Pubkey
  mint_x : Pubkey
  mint_y : Pubkey
  fee : Nat
  config_bump : Nat
  deriving DecidableEq, Repr

/-- `Config::LEN` = 1 + 8 + 3*32 + 2 + 1 bytes. -/
def Config.LEN : Nat := 1 + 8 + 32 * 3 + 2 + 1

/-- `Config::set_state`: rejects `state >= AmmState::WithdrawOnly as u8`,
i.e. every value ≥ 3 (note: this includes WithdrawOnly = 3 itself). -/
def Config.set_state (c : Config) (state : Nat) : Except ProgramError Config :=
  if 3 ≤ state then .error .invalidAccountData
  else .ok { c with state := state }

/-- `Config::set_fee`: rejects `fee >= 10_000`. -/
def Config.set_fee (c : Config) (fee : Nat) : Except ProgramError Config :=
  if 10000 ≤ fee then .error .invalidAccountData
  else .ok { c with fee := fee }

/-- `Config::set_authority`: rejects the all-zero `Pubkey::default()`. -/
def Config.set_authority (c : Config) (authority : Pubkey) : Except ProgramError Config :=
  if authority = zeroPubkey then .error .invalidArgument
  else .ok { c with authority := authority }

/-- `Config::set_mint_x`: rejects a mint equal to the stored `mint_y`. -/
def Config.set_mint_x (c : Config) (mx : Pubkey) : Except ProgramError Config :=
  if mx = c.mint_y then .error .invalidArgument
  else .ok { c with mint_x := mx }

/-- `Config::set_mint_y`: rejects a mint equal to the stored `mint_x`. -/
def Config.set_mint_y (c : Config) (my : Pubkey) : Except ProgramError Config :=
  if my = c.mint_x then .error .invalidArgument
  else .ok { c with mint_y := my }

/-- `Config::set_seed`: rejects a zero seed, and rejects re-setting a
record whose stored seed is already non-zero. -/
def Config.set_seed (c : Config) (seed : Nat) : Except ProgramError Config :=
  if seed = 0 then .error .invalidArgument
  else if c.seed ≠ 0 then .error .accountAlreadyInit
  else .ok { c with seed := seed }

/-- `Config::set_config_bump`: rejects re-setting once non-zero. -/
def Config.set_config_bump (c : Config) (bump : Nat) : Except ProgramError Config :=
  if c.config_bump ≠ 0 then .error .accountAlreadyInit
  else .ok { c with config_bump := bump }

/-- `Config::set_inner`: the atomic all-field update, chaining the
individual setters with the `?` operator (state is set to
`AmmState::Initialized as u8` = 1). -/
def Config.set_inner (c : Config) (seed : Nat) (authority mx my : Pubkey)
    (fee : Nat) (bump : Nat) : Except ProgramError Config :=
  match c.set_state 1 with
  | .error e => .error e
  | .ok c =>
    match c.set_seed seed with
    | .error e => .error e
    | .ok c =>
      match c.set_authority authority with
      | .error e => .error e
      | .ok c =>
        match c.set_mint_x mx with
        | .error e => .error e
        | .ok c =>
          match c.set_mint_y my with
          | .error e => .error e
          | .ok c =>
            match c.set_fee fee with
            | .error e => .error e
            | .ok c => c.set_config_bump bump

/-- Little-endian byte list to natural number. -/
def leBytesToNat : List Nat → Nat
  | [] => 0
  | b :: bs => b + 256 * leBytesToNat bs

/-- The sub-list `data[off .. off+len]`. -/
def readBytes (data : List Nat) (off len : Nat) : List Nat :=
  (data.drop off).take len

/-- `u64::from_le_bytes(data[off..off+8])`. -/
def readU64le (data : List Nat) (off : Nat) : Nat :=
  leBytesToNat (readBytes data off 8)

/-- `u16::from_le_bytes(data[off..off+2])`. -/
def readU16le (data : List Nat) (off : Nat) : Nat :=
  leBytesToNat (readBytes data off 2)

/-- `i64::from_le_bytes(data[off..off+8])`: two's-complement signed view. -/
def readI64le (data : List Nat) (off : Nat) : Int :=
  let n := readU64le data off
  if n < 2 ^ 63 then (n : Int) else (n : Int) - 2 ^ 64

/-- `DepositInstructionData` of src/instructions/deposit.rs. -/
structure DepositData where
  amount : Nat
  max_x : Nat
  max_y : Nat
  expiration : Int
  deriving DecidableEq, Repr

/-- `DepositInstructionData::try_from(&[u8])`: 32-byte payload, rejects a
zero `amount`, then rejects when the clock value `now` (read once) is
strictly greater than `expiration`. -/
def DepositData.tryFrom (data : List Nat) (now : Int) : Except ProgramError DepositData :=
  if data.length ≠ 8 * 4 then .error .invalidInstructionData
  else
    let amount := readU64le data 0
    if amount = 0 then .error .invalidInstructionData
    else
      let max_x := readU64le data 8
      let max_y := readU64le data 16
      let expiration := readI64le data 24
      if now > expiration then .error .invalidInstructionData
      else .ok ⟨amount, max_x, max_y, expiration⟩

/-- `WithdrawInstructionData` of src/instructions/withdraw.rs. -/
structure WithdrawData where
  amount : Nat
  min_x : Nat
  min_y : Nat
  expiration : Int
  deriving DecidableEq, Repr

/-- `WithdrawInstructionData::try_from(&[u8])`: same shape as deposit
with `min_x`/`min_y` in place of the ceilings. -/
def WithdrawData.tryFrom (data : List Nat) (now : Int) : Except ProgramError WithdrawData :=
  if data.length ≠ 8 * 4 then .error .invalidInstructionData
  else
    let amount := readU64le data 0
    if amount = 0 then .error .invalidInstructionData
    else
      let min_x := readU64le data 8
      let min_y := readU64le data 16
      let expiration := readI64le data 24
      if now > expiration then .error .invalidInstructionData
      else .ok ⟨amount, min_x, min_y, expiration⟩

/-- `SwapInstructionData` of src/instructions/swap.rs. -/
structure SwapData where
  is_x : Bool
  amount : Nat
  min : Nat
  expiration : Int
  deriving DecidableEq, Repr

/-- `SwapInstructionData::try_from(&[u8])`: 25-byte payload
(`is_x` byte, then amount, min, expiration), zero-amount and
expiration checks as in deposit. -/
def SwapData.tryFrom (data : List Nat) (now : Int) : Except ProgramError SwapData :=
  if data.length ≠ 8 * 3 + 1 then .error .invalidInstructionData
  else
    let is_x := data.getD 0 0 ≠ 0
    let amount := readU64le data 1
    if amount = 0 then .error .invalidInstructionData
    else
      let min := readU64le data 9
      let expiration := readI64le data 17
      if now > expiration then .error .invalidInstructionData
      else .ok ⟨is_x, amount, min, expiration⟩

/-- `InitializeInstructionData` of src/instructions/initialize.rs
(the pool-creation payload). -/
structure InitPoolData where
  seed : Nat
  fee : Nat
  mint_x : Pubkey
  mint_y : Pubkey
  config_bump : Nat
  lp_bump : Nat
  authority : Pubkey
  deriving DecidableEq, Repr

/-- `InitializeInstructionData::try_from(&[u8])`: accepts the 108-byte
layout (with trailing authority) or the 76-byte layout, in which case the
`authority` field is padded with 32 zero bytes. -/
def InitPoolData.tryFrom (data : List Nat) : Except ProgramError InitPoolData :=
  if data.length = 108 then
    .ok ⟨readU64le data 0, readU16le data 8, readBytes data 10 32,
         readBytes data 42 32, data.getD 74 0, data.getD 75 0, readBytes data 76 32⟩
  else if data.length = 76 then
    .ok ⟨readU64le data 0, readU16le data 8, readBytes data 10 32,
         readBytes data 42 32, data.getD 74 0, data.getD 75 0, zeroPubkey⟩
  else .error .invalidInstructionData

/-- An externally invoked balance-service call (CPI). The handlers emit
these in program order on their success path; every rejection in the
source happens before the first `invoke`. -/
inductive Effect where
  | createAccount (payer target : Pubkey) (space : Nat)
  | initMint (mint : Pubkey) (decimals : Nat) (mintAuthority : Pubkey)
  | transfer (source dest authority : Pubkey) (amount : Nat)
  | mintTo (account mint mintAuthority : Pubkey) (amount : Nat)
  | burn (account mint authority : Pubkey) (amount : Nat)
  deriving DecidableEq, Repr

/-- The `(x, y)` pair returned by the curve crate's
`xy_deposit_amounts_from_l` / `xy_withdraw_amounts_from_l`. -/
structure XYAmounts where
  x : Nat
  y : Nat
  deriving DecidableEq, Repr

/-- The `(deposit, withdraw)` pair returned by the curve crate's `swap`. -/
structure SwapResult where
  deposit : Nat
  withdraw : Nat
  deriving DecidableEq, Repr

/-- The curve crate's `LiquidityPair` direction selector. -/
inductive LiquidityPair where
  | X
  | Y
  deriving DecidableEq, Repr

/-- Type of the external curve functions `xy_deposit_amounts_from_l` and
`xy_withdraw_amounts_from_l`: arguments (reserve x, reserve y, LP supply,
LP amount, precision). The crate is external, so handlers take such a
function as an opaque parameter. -/
abbrev XYFromL := Nat → Nat → Nat → Nat → Nat → Except Unit XYAmounts

/-- Type of the external `find_program_address` specialised to the vault
(associated-token-account) derivation the handlers perform: arguments
(config key, token-program key, mint key), under the ATA program id. -/
abbrev DeriveVault := Pubkey → Pubkey → Pubkey → Pubkey

/-- Token-account balances the handlers read after validating the vaults:
the LP mint supply and the two vault amounts. -/
structure TokenAmounts where
  lpSupply : Nat
  vaultX : Nat
  vaultY : Nat
  deriving DecidableEq, Repr

/-- `DepositAccounts`: the nine account keys of a Deposit invocation. -/
structure DepositAccounts where
  user : Pubkey
  mint_lp : Pubkey
  vault_x : Pubkey
  vault_y : Pubkey
  user_x_ata : Pubkey
  user_y_ata : Pubkey
  user_lp_ata : Pubkey
  config : Pubkey
  token_program : Pubkey
  deriving DecidableEq, Repr

/-- `WithdrawAccounts`: same nine keys as Deposit. -/
structure WithdrawAccounts where
  user : Pubkey
  mint_lp : Pubkey
  vault_x : Pubkey
  vault_y : Pubkey
  user_x_ata : Pubkey
  user_y_ata : Pubkey
  user_lp_ata : Pubkey
  config : Pubkey
  token_program : Pubkey
  deriving DecidableEq, Repr

/-- `SwapAccounts`: the seven account keys of a Swap invocation. -/
structure SwapAccounts where
  user : Pubkey
  user_x_ata : Pubkey
  user_y_ata : Pubkey
  vault_x : Pubkey
  vault_y : Pubkey
  config : Pubkey
  token_program : Pubkey
  deriving DecidableEq, Repr

/-- The Deposit state guard of src/instructions/deposit.rs line 125:
`config.state().ne(&(AmmState::Initialized as u8))`. -/
def Deposit.stateGuardRejects (s : Nat) : Bool := s != 1

/-- The Withdraw state guard of src/instructions/withdraw.rs line 123:
`config.state().eq(&(AmmState::Disabled as u8))`. -/
def Withdraw.stateGuardRejects (s : Nat) : Bool := s == 2

/-- The Swap state guard of src/instructions/swap.rs line 118:
`config.state().ne(&(AmmState::Initialized as u8))`. -/
def Swap.stateGuardRejects (s : Nat) : Bool := s != 1

/-- The deposit quantity computation (deposit.rs lines 163-177): the
bootstrap branch returns `(max_x, max_y)` when the pool is empty,
otherwise `xy_deposit_amounts_from_l(vault_x, vault_y, supply, amount, 6)`
with a curve error mapped to `InvalidArgument`. -/
def Deposit.xyAmounts (f : XYFromL) (vaultX vaultY lpSupply amount maxX maxY : Nat) :
    Except ProgramError XYAmounts :=
  if lpSupply = 0 ∧ vaultX = 0 ∧ vaultY = 0 then .ok ⟨maxX, maxY⟩
  else
    match f vaultX vaultY lpSupply amount 6 with
    | .error _ => .error .invalidArgument
    | .ok a => .ok a

/-- The withdraw quantity computation (withdraw.rs lines 160-174): the
full-drain branch returns the whole reserves when `supply == amount`,
otherwise `xy_withdraw_amounts_from_l(vault_x, vault_y, supply, amount, 6)`
with a curve error mapped to `InvalidArgument`. -/
def Withdraw.xyAmounts (f : XYFromL) (vaultX vaultY lpSupply amount : Nat) :
    Except ProgramError XYAmounts :=
  if lpSupply = amount then .ok ⟨vaultX, vaultY⟩
  else
    match f vaultX vaultY lpSupply amount 6 with
    | .error _ => .error .invalidArgument
    | .ok a => .ok a

/-- `Deposit::process` (deposit.rs lines 122-225): state guard, the two
vault re-derivation checks, the quantity computation, the slippage check,
then the two transfers and the LP mint. -/
def Deposit.process (dv : DeriveVault) (f : XYFromL) (a : DepositAccounts)
    (d : DepositData) (cfg : Config) (am : TokenAmounts) :
    Except ProgramError (List Effect) :=
  if Deposit.stateGuardRejects cfg.state then .error .invalidAccountData
  else if dv a.config a.token_program cfg.mint_x ≠ a.vault_x then .error .invalidAccountData
  else if dv a.config a.token_program cfg.mint_y ≠ a.vault_y then .error .invalidAccountData
  else
    match Deposit.xyAmounts f am.vaultX am.vaultY am.lpSupply d.amount d.max_x d.max_y with
    | .error e => .error e
    | .ok xy =>
      if ¬ (xy.x ≤ d.max_x ∧ xy.y ≤ d.max_y) then .error .invalidArgument
      else .ok
        [ .transfer a.user_x_ata a.vault_x a.user xy.x,
          .transfer a.user_y_ata a.vault_y a.user xy.y,
          .mintTo a.user_lp_ata a.mint_lp a.config d.amount ]

/-- `Withdraw::process` (withdraw.rs lines 120-221): state guard, the two
vault re-derivation checks, the quantity computation, the slippage check,
then the two vault-to-user transfers and the LP burn. -/
def Withdraw.process (dv : DeriveVault) (f : XYFromL) (a : WithdrawAccounts)
    (d : WithdrawData) (cfg : Config) (am : TokenAmounts) :
    Except ProgramError (List Effect) :=
  if Withdraw.stateGuardRejects cfg.state then .error .invalidAccountData
  else if dv a.config a.token_program cfg.mint_x ≠ a.vault_x then .error .invalidAccountData
  else if dv a.config a.token_program cfg.mint_y ≠ a.vault_y then .error .invalidAccountData
  else
    match Withdraw.xyAmounts f am.vaultX am.vaultY am.lpSupply d.amount with
    | .error e => .error e
    | .ok xy =>
      if ¬ (xy.x ≥ d.min_x ∧ xy.y ≥ d.min_y) then .error .invalidArgument
      else .ok
        [ .transfer a.vault_x a.user_x_ata a.config xy.x,
          .transfer a.vault_y a.user_y_ata a.config xy.y,
          .burn a.user_lp_ata a.mint_lp a.user d.amount ]

/-- `swap.rs` lines 164-167: the direction selector built from `is_x`. -/
def Swap.pairOf (is_x : Bool) : LiquidityPair :=
  if is_x then .X else .Y

/-- `Swap::process` (swap.rs lines 115-225): state guard, vault checks,
`ConstantProduct::init(vault_x, vault_y, vault_x, fee, None)` (errors map
to `Custom(1)`), `curve.swap(pair, amount, min)` (errors map to
`Custom(1)`), the zero-quantity check, then the two transfers in the
direction given by `is_x`. The curve state type and the two crate
functions are opaque parameters. -/
def Swap.process {σ : Type} (dv : DeriveVault)
    (cpInit : Nat → Nat → Nat → Nat → Option Nat → Except Unit σ)
    (cpSwap : σ → LiquidityPair → Nat → Nat → Except Unit SwapResult)
    (a : SwapAccounts) (d : SwapData) (cfg : Config) (vaultX vaultY : Nat) :
    Except ProgramError (List Effect) :=
  if Swap.stateGuardRejects cfg.state then .error .invalidAccountData
  else if dv a.config a.token_program cfg.mint_x ≠ a.vault_x then .error .invalidAccountData
  else if dv a.config a.token_program cfg.mint_y ≠ a.vault_y then .error .invalidAccountData
  else
    match cpInit vaultX vaultY vaultX cfg.fee none with
    | .error _ => .error (.custom 1)
    | .ok curve =>
      match cpSwap curve (Swap.pairOf d.is_x) d.amount d.min with
      | .error _ => .error (.custom 1)
      | .ok res =>
        if res.deposit = 0 ∨ res.withdraw = 0 then .error .invalidArgument
        else if d.is_x then .ok
          [ .transfer a.user_x_ata a.vault_x a.user res.deposit,
            .transfer a.vault_y a.user_y_ata a.config res.withdraw ]
        else .ok
          [ .transfer a.user_y_ata a.vault_y a.user res.deposit,
            .transfer a.vault_x a.user_x_ata a.config res.withdraw ]

/-- `InitializeAccounts` of src/instructions/initialize.rs: the creator
(fee payer), the LP mint target and the config target. -/
structure InitPoolAccounts where
  creator : Pubkey
  mint_lp : Pubkey
  config : Pubkey
  deriving DecidableEq, Repr

/-- `Mint::LEN` of the SPL token program (82 bytes), used only as the
space of the LP mint allocation. -/
def mintLen : Nat := 82

/-- The CPI sequence `Initialize::process` emits (initialize.rs lines
120-176): create the config account, create the LP mint account, and
initialize the mint with 6 decimals and the config address as mint
authority. Note that no step writes the config record's fields. -/
def InitPool.effects (a : InitPoolAccounts) : List Effect :=
  [ .createAccount a.creator a.config Config.LEN,
    .createAccount a.creator a.mint_lp mintLen,
    .initMint a.mint_lp 6 a.config ]

/-- `Initialize::process` (initialize.rs lines 120-176) as a transformer
of the config record's typed contents: the handler performs the three
CPIs of `InitPool.effects` and returns; it contains no statement that
writes `state`, `seed`, `authority`, `mint_x`, `mint_y`, `fee` or
`config_bump` (in particular it never calls `Config::set_inner`), so the
record contents pass through unchanged. -/
def InitPool.process (a : InitPoolAccounts) (d : InitPoolData) (record : Config) :
    Except ProgramError (Config × List Effect) :=
  .ok (record, InitPool.effects a)

/-- The contents of a freshly allocated config account: `CreateAccount`
zero-fills the new account's data, so the typed view is all-zero. -/
def freshConfig : Config :=
  ⟨0, 0, zeroPubkey, zeroPubkey, zeroPubkey, 0, 0⟩

/-- C1: the claim says every successful InitializePool leaves the config
record satisfying the initialized-pool invariants (state = Initialized,
seed = payload seed ≠ 0, fee < 10000, mint_x ≠ mint_y, bump = payload
bump). The handler in fact performs only the three allocation/mint CPIs
and never writes the record, so a fresh (zero-filled) config record comes
out still all-zero: state = Uninitialized (≠ Initialized), seed = 0 and
mint_x = mint_y, contradicting the claim. -/
theorem c1_init_pool_leaves_config_unwritten :
    (∀ (a : InitPoolAccounts) (d : InitPoolData) (record : Config),
        InitPool.process a d record = .ok (record, InitPool.effects a)) ∧
    freshConfig.state = 0 ∧ (freshConfig.state == 1) = false ∧
    freshConfig.seed = 0 ∧ freshConfig.mint_x = freshConfig.mint_y ∧
    freshConfig.config_bump = 0 :=
  ⟨fun _ _ _ => rfl, rfl, rfl, rfl, rfl, rfl⟩

/-- C5: the claim says `Config::set_state` accepts every value in
{0,1,2,3} and rejects exactly the values ≥ 4. The guard in the code is
`state >= AmmState::WithdrawOnly as u8`, i.e. ≥ 3, so it accepts exactly
{0,1,2} and rejects WithdrawOnly = 3 itself: `set_state` succeeds iff the
argument is < 3. -/
theorem c5_set_state_rejects_withdraw_only :
    (∀ (c : Config) (s : Nat), (Config.set_state c s).isOk = decide (s < 3)) ∧
    (∀ c : Config, Config.set_state c 3 = .error .invalidAccountData) ∧
    (∀ c : Config, Config.set_state c 4 = .error .invalidAccountData) := by
  refine ⟨fun c s => ?_, fun c => rfl, fun c => rfl⟩
  unfold Config.set_state
  by_cases h : 3 ≤ s
  · rw [if_pos h, decide_eq_false (by omega)]
    rfl
  · rw [if_neg h, decide_eq_true (by omega)]
    rfl

/-- C10: `Config::set_authority` rejects the all-zero authority, and
`Config::set_inner` calls it unconditionally, so no setter path can
record the all-zero "no authority" sentinel, even though the 76-byte
decode path pads the absent payload authority with zero bytes. -/
theorem c10_zero_authority_unreachable :
    (∀ c : Config, Config.set_authority c zeroPubkey = .error .invalidArgument) ∧
    (∀ (c : Config) (seed : Nat) (mx my : Pubkey) (fee bump : Nat),
        (Config.set_inner c seed zeroPubkey mx my fee bump).isOk = false) ∧
    (∀ data : List Nat, data.length = 76 →
        ∀ d : InitPoolData, InitPoolData.tryFrom data = .ok d →
          d.authority = zeroPubkey) := by
  refine ⟨fun c => by simp [Config.set_authority], ?_, ?_⟩
  · intro c seed mx my fee bump
    unfold Config.set_inner
    split
    · rfl
    · split
      · rfl
      · rfl
  · intro data h d hd
    unfold InitPoolData.tryFrom at hd
    rw [if_neg (by omega), if_pos h] at hd
    simp only [Except.ok.injEq] at hd
    subst hd
    rfl

/-- C2: over every raw state ordinal, the Withdraw guard rejects exactly
Disabled = 2 while the Deposit and Swap guards reject exactly the non-
Initialized values; each process returns the guard error in a rejected
state, and in WithdrawOnly = 3 a Withdraw can run to completion. -/
theorem c2_state_guard_asymmetry :
    (∀ s : Nat, Withdraw.stateGuardRejects s = true ↔ s = 2) ∧
    (∀ s : Nat, Deposit.stateGuardRejects s = true ↔ s ≠ 1) ∧
    (∀ s : Nat, Swap.stateGuardRejects s = true ↔ s ≠ 1) ∧
    (∀ (dv : DeriveVault) (f : XYFromL) (a : WithdrawAccounts) (d : WithdrawData)
        (cfg : Config) (am : TokenAmounts), cfg.state = 2 →
        Withdraw.process dv f a d cfg am = .error .invalidAccountData) ∧
    (∀ (dv : DeriveVault) (f : XYFromL) (a : DepositAccounts) (d : DepositData)
        (cfg : Config) (am : TokenAmounts), cfg.state ≠ 1 →
        Deposit.process dv f a d cfg am = .error .invalidAccountData) ∧
    (∀ (σ : Type) (dv : DeriveVault)
        (cpInit : Nat → Nat → Nat → Nat → Option Nat → Except Unit σ)
        (cpSwap : σ → LiquidityPair → Nat → Nat → Except Unit SwapResult)
        (a : SwapAccounts) (d : SwapData) (cfg : Config) (vX vY : Nat),
        cfg.state ≠ 1 →
        Swap.process dv cpInit cpSwap a d cfg vX vY = .error .invalidAccountData) ∧
    (∃ (dv : DeriveVault) (f : XYFromL) (a : WithdrawAccounts) (d : WithdrawData)
        (cfg : Config) (am : TokenAmounts),
        cfg.state = 3 ∧ (Withdraw.process dv f a d cfg am).isOk = true) := by
  refine ⟨?_, ?_, ?_, ?_, ?_, ?_, ?_⟩
  · intro s
    simp [Withdraw.stateGuardRejects]
  · intro s
    simp [Deposit.stateGuardRejects]
  · intro s
    simp [Swap.stateGuardRejects]
  · intro dv f a d cfg am h
    unfold Withdraw.process
    rw [if_pos (by simp [Withdraw.stateGuardRejects, h])]
  · intro dv f a d cfg am h
    unfold Deposit.process
    rw [if_pos (by simp [Deposit.stateGuardRejects, h])]
  · intro σ dv cpInit cpSwap a d cfg vX vY h
    unfold Swap.process
    rw [if_pos (by simp [Swap.stateGuardRejects, h])]
  · refine ⟨fun _ _ _ => zeroPubkey, fun _ _ _ _ _ => .error (),
      ⟨zeroPubkey, zeroPubkey, zeroPubkey, zeroPubkey, zeroPubkey, zeroPubkey,
       zeroPubkey, zeroPubkey, zeroPubkey⟩,
      ⟨5, 0, 0, 0⟩, ⟨3, 1, zeroPubkey, zeroPubkey, zeroPubkey, 0, 1⟩,
      ⟨5, 0, 0⟩, rfl, by decide⟩

/-- C2 witness: a Deposit in state WithdrawOnly = 3 is rejected with the
guard error. -/
theorem c2_state_guard_asymmetry_witness :
    Deposit.process (fun _ _ _ => zeroPubkey) (fun _ _ _ _ _ => .error ())
      ⟨zeroPubkey, zeroPubkey, zeroPubkey, zeroPubkey, zeroPubkey, zeroPubkey,
       zeroPubkey, zeroPubkey, zeroPubkey⟩
      ⟨1, 0, 0, 0⟩ ⟨3, 1, zeroPubkey, zeroPubkey, zeroPubkey, 0, 1⟩ ⟨0, 0, 0⟩ =
      .error .invalidAccountData :=
  c2_state_guard_asymmetry.2.2.2.2.1 _ _ _ _ _ _ (by decide)

/-- C3: whenever the Withdraw payload amount equals the outstanding LP
supply, the quantity computation returns exactly the two current reserve
balances — for every possible curve function, since the full-drain branch
never calls it — and any successful Withdraw then transfers exactly those
balances and burns the payload amount. -/
theorem c3_full_drain_returns_reserves (dv : DeriveVault) (f : XYFromL)
    (a : WithdrawAccounts) (d : WithdrawData) (cfg : Config) (am : TokenAmounts)
    (h : am.lpSupply = d.amount) :
    Withdraw.xyAmounts f am.vaultX am.vaultY am.lpSupply d.amount =
      .ok ⟨am.vaultX, am.vaultY⟩ ∧
    ∀ effs : List Effect, Withdraw.process dv f a d cfg am = .ok effs →
      effs = [ .transfer a.vault_x a.user_x_ata a.config am.vaultX,
               .transfer a.vault_y a.user_y_ata a.config am.vaultY,
               .burn a.user_lp_ata a.mint_lp a.user d.amount ] := by
  have hxy : Withdraw.xyAmounts f am.vaultX am.vaultY am.lpSupply d.amount =
      .ok ⟨am.vaultX, am.vaultY⟩ := by
    unfold Withdraw.xyAmounts
    rw [if_pos h]
  refine ⟨hxy, ?_⟩
  intro effs he
  unfold Withdraw.process at he
  rw [hxy] at he
  split at he
  · exact absurd he (by simp)
  · split at he
    · exact absurd he (by simp)
    · split at he
      · exact absurd he (by simp)
      · simp only [ge_iff_le, ite_not] at he
        split at he
        · injection he with h
          exact h.symm
        · exact absurd he (by simp)

/-- C3 witness: on a pool with LP supply 5 and reserves (7, 9), a
Withdraw for 5 LP (the whole supply) computes exactly (7, 9). -/
theorem c3_full_drain_returns_reserves_witness :
    Withdraw.xyAmounts (fun _ _ _ _ _ => .error ()) 7 9 5 5 = .ok ⟨7, 9⟩ :=
  (c3_full_drain_returns_reserves (fun _ _ _ => zeroPubkey)
    (fun _ _ _ _ _ => .error ())
    ⟨zeroPubkey, zeroPubkey, zeroPubkey, zeroPubkey, zeroPubkey, zeroPubkey,
     zeroPubkey, zeroPubkey, zeroPubkey⟩
    ⟨5, 0, 0, 0⟩ freshConfig ⟨5, 7, 9⟩ rfl).1

/-- C4: on an empty pool (LP supply 0, both reserves 0), a Deposit whose
state guard and vault checks pass succeeds and moves exactly `max_x` of X
and `max_y` of Y and mints exactly `amount` LP tokens — for every curve
function, since the bootstrap branch never calls it. -/
theorem c4_bootstrap_deposit_takes_max (dv : DeriveVault) (f : XYFromL)
    (a : DepositAccounts) (d : DepositData) (cfg : Config) (am : TokenAmounts)
    (hempty : am.lpSupply = 0 ∧ am.vaultX = 0 ∧ am.vaultY = 0)
    (hstate : cfg.state = 1)
    (hvx : dv a.config a.token_program cfg.mint_x = a.vault_x)
    (hvy : dv a.config a.token_program cfg.mint_y = a.vault_y) :
    Deposit.process dv f a d cfg am = .ok
      [ .transfer a.user_x_ata a.vault_x a.user d.max_x,
        .transfer a.user_y_ata a.vault_y a.user d.max_y,
        .mintTo a.user_lp_ata a.mint_lp a.config d.amount ] := by
  have hxy : Deposit.xyAmounts f am.vaultX am.vaultY am.lpSupply d.amount
      d.max_x d.max_y = .ok ⟨d.max_x, d.max_y⟩ := by
    unfold Deposit.xyAmounts
    rw [if_pos hempty]
  unfold Deposit.process
  rw [if_neg (by simp [Deposit.stateGuardRejects, hstate]),
    if_neg (by simp [hvx]), if_neg (by simp [hvy]), hxy]
  simp

/-- C4 witness: the spec's own numbers — empty pool, `amount = 500`,
`max_x = 1000`, `max_y = 2000` — move exactly 1000 of X, 2000 of Y and
mint exactly 500 LP tokens. -/
theorem c4_bootstrap_deposit_takes_max_witness :
    Deposit.process (fun _ _ _ => zeroPubkey) (fun _ _ _ _ _ => .error ())
      ⟨zeroPubkey, zeroPubkey, zeroPubkey, zeroPubkey, zeroPubkey, zeroPubkey,
       zeroPubkey, zeroPubkey, zeroPubkey⟩
      ⟨500, 1000, 2000, 0⟩ ⟨1, 1, zeroPubkey, zeroPubkey, zeroPubkey, 0, 1⟩
      ⟨0, 0, 0⟩ = .ok
      [ .transfer zeroPubkey zeroPubkey zeroPubkey 1000,
        .transfer zeroPubkey zeroPubkey zeroPubkey 2000,
        .mintTo zeroPubkey zeroPubkey zeroPubkey 500 ] :=
  c4_bootstrap_deposit_takes_max (fun _ _ _ => zeroPubkey)
    (fun _ _ _ _ _ => .error ()) _ _ _ _ ⟨rfl, rfl, rfl⟩ rfl rfl rfl

/-- C6: in each of Deposit, Withdraw and Swap, if either supplied vault
key differs from the address re-derived from the config record's mint,
the operation fails, so no transfer effect is ever produced. -/
theorem c6_vault_rederivation_check :
    (∀ (dv : DeriveVault) (f : XYFromL) (a : DepositAccounts) (d : DepositData)
        (cfg : Config) (am : TokenAmounts),
        dv a.config a.token_program cfg.mint_x ≠ a.vault_x ∨
          dv a.config a.token_program cfg.mint_y ≠ a.vault_y →
        (Deposit.process dv f a d cfg am).isOk = false) ∧
    (∀ (dv : DeriveVault) (f : XYFromL) (a : WithdrawAccounts) (d : WithdrawData)
        (cfg : Config) (am : TokenAmounts),
        dv a.config a.token_program cfg.mint_x ≠ a.vault_x ∨
          dv a.config a.token_program cfg.mint_y ≠ a.vault_y →
        (Withdraw.process dv f a d cfg am).isOk = false) ∧
    (∀ (σ : Type) (dv : DeriveVault)
        (cpInit : Nat → Nat → Nat → Nat → Option Nat → Except Unit σ)
        (cpSwap : σ → LiquidityPair → Nat → Nat → Except Unit SwapResult)
        (a : SwapAccounts) (d : SwapData) (cfg : Config) (vX vY : Nat),
        dv a.config a.token_program cfg.mint_x ≠ a.vault_x ∨
          dv a.config a.token_program cfg.mint_y ≠ a.vault_y →
        (Swap.process dv cpInit cpSwap a d cfg vX vY).isOk = false) := by
  refine ⟨?_, ?_, ?_⟩
  · intro dv f a d cfg am h
    unfold Deposit.process
    split
    · rfl
    · split
      · rfl
      · split
        · rfl
        · rename_i h1 h2
          rcases h with h | h
          · exact absurd h h1
          · exact absurd h h2
  · intro dv f a d cfg am h
    unfold Withdraw.process
    split
    · rfl
    · split
      · rfl
      · split
        · rfl
        · rename_i h1 h2
          rcases h with h | h
          · exact absurd h h1
          · exact absurd h h2
  · intro σ dv cpInit cpSwap a d cfg vX vY h
    unfold Swap.process
    split
    · rfl
    · split
      · rfl
      · split
        · rfl
        · rename_i h1 h2
          rcases h with h | h
          · exact absurd h h1
          · exact absurd h h2

/-- C6 witness: a Deposit whose supplied vault X key is not the derived
address is rejected. -/
theorem c6_vault_rederivation_check_witness :
    (Deposit.process (fun _ _ _ => 1 :: List.replicate 31 0)
      (fun _ _ _ _ _ => .error ())
      ⟨zeroPubkey, zeroPubkey, zeroPubkey, zeroPubkey, zeroPubkey, zeroPubkey,
       zeroPubkey, zeroPubkey, zeroPubkey⟩
      ⟨1, 0, 0, 0⟩ ⟨1, 1, zeroPubkey, zeroPubkey, zeroPubkey, 0, 1⟩
      ⟨0, 0, 0⟩).isOk = false :=
  c6_vault_rederivation_check.1 _ _ _ _ _ _ (Or.inl (by decide))

/-- C7: Deposit rejects whenever the computed quantities break the
ceilings `x ≤ max_x ∧ y ≤ max_y`, and Withdraw rejects whenever they
break the floors `x ≥ min_x ∧ y ≥ min_y`; the rejected operation produces
no effects. -/
theorem c7_slippage_checks :
    (∀ (dv : DeriveVault) (f : XYFromL) (a : DepositAccounts) (d : DepositData)
        (cfg : Config) (am : TokenAmounts) (xy : XYAmounts),
        Deposit.xyAmounts f am.vaultX am.vaultY am.lpSupply d.amount d.max_x d.max_y =
          .ok xy →
        ¬ (xy.x ≤ d.max_x ∧ xy.y ≤ d.max_y) →
        (Deposit.process dv f a d cfg am).isOk = false) ∧
    (∀ (dv : DeriveVault) (f : XYFromL) (a : WithdrawAccounts) (d : WithdrawData)
        (cfg : Config) (am : TokenAmounts) (xy : XYAmounts),
        Withdraw.xyAmounts f am.vaultX am.vaultY am.lpSupply d.amount = .ok xy →
        ¬ (xy.x ≥ d.min_x ∧ xy.y ≥ d.min_y) →
        (Withdraw.process dv f a d cfg am).isOk = false) := by
  constructor
  · intro dv f a d cfg am xy hxy hslip
    unfold Deposit.process
    rw [hxy]
    split
    · rfl
    · split
      · rfl
      · split
        · rfl
        · simp only [ite_not]
          rw [if_neg hslip]
          rfl
  · intro dv f a d cfg am xy hxy hslip
    unfold Withdraw.process
    rw [hxy]
    split
    · rfl
    · split
      · rfl
      · split
        · rfl
        · simp only [ge_iff_le, ite_not]
          rw [if_neg (by simpa using hslip)]
          rfl

/-- C7 witness: with a curve reporting (10, 10) against ceilings (5, 5),
the Deposit is rejected. -/
theorem c7_slippage_checks_witness :
    (Deposit.process (fun _ _ _ => zeroPubkey) (fun _ _ _ _ _ => .ok ⟨10, 10⟩)
      ⟨zeroPubkey, zeroPubkey, zeroPubkey, zeroPubkey, zeroPubkey, zeroPubkey,
       zeroPubkey, zeroPubkey, zeroPubkey⟩
      ⟨1, 5, 5, 0⟩ ⟨1, 1, zeroPubkey, zeroPubkey, zeroPubkey, 0, 1⟩
      ⟨1, 2, 3⟩).isOk = false :=
  c7_slippage_checks.1 _ _ _ _ _ _ ⟨10, 10⟩ rfl (by decide)

/-- C8: for a well-formed Deposit, Withdraw or Swap payload (correct
length, non-zero amount), decoding succeeds exactly when the clock value
`now`, read once, satisfies `now ≤ expiration`: equality is accepted and
`now = expiration + 1` is rejected. -/
theorem c8_expiration_boundary (dd wd sd : List Nat) (now : Int)
    (hdl : dd.length = 32) (hda : readU64le dd 0 ≠ 0)
    (hwl : wd.length = 32) (hwa : readU64le wd 0 ≠ 0)
    (hsl : sd.length = 25) (hsa : readU64le sd 1 ≠ 0) :
    ((DepositData.tryFrom dd now).isOk = true ↔ now ≤ readI64le dd 24) ∧
    ((WithdrawData.tryFrom wd now).isOk = true ↔ now ≤ readI64le wd 24) ∧
    ((SwapData.tryFrom sd now).isOk = true ↔ now ≤ readI64le sd 17) := by
  refine ⟨?_, ?_, ?_⟩
  · unfold DepositData.tryFrom
    rw [if_neg (by omega), if_neg hda]
    by_cases h : now > readI64le dd 24
    · rw [if_pos h]
      constructor
      · intro hk
        exact absurd hk (by decide)
      · intro hk
        omega
    · rw [if_neg h]
      constructor
      · intro _
        omega
      · intro _
        rfl
  · unfold WithdrawData.tryFrom
    rw [if_neg (by omega), if_neg hwa]
    by_cases h : now > readI64le wd 24
    · rw [if_pos h]
      constructor
      · intro hk
        exact absurd hk (by decide)
      · intro hk
        omega
    · rw [if_neg h]
      constructor
      · intro _
        omega
      · intro _
        rfl
  · unfold SwapData.tryFrom
    rw [if_neg (by omega), if_neg hsa]
    by_cases h : now > readI64le sd 17
    · rw [if_pos h]
      constructor
      · intro hk
        exact absurd hk (by decide)
      · intro hk
        omega
    · rw [if_neg h]
      constructor
      · intro _
        omega
      · intro _
        rfl

/-- C8 witness: payloads whose expiration equals the clock value 0 are
accepted by all three decoders. -/
theorem c8_expiration_boundary_witness :
    (DepositData.tryFrom (1 :: List.replicate 31 0) 0).isOk = true ∧
    (WithdrawData.tryFrom (1 :: List.replicate 31 0) 0).isOk = true ∧
    (SwapData.tryFrom (0 :: 1 :: List.replicate 23 0) 0).isOk = true := by
  obtain ⟨h1, h2, h3⟩ := c8_expiration_boundary (1 :: List.replicate 31 0)
    (1 :: List.replicate 31 0) (0 :: 1 :: List.replicate 23 0) 0
    (by decide) (by decide) (by decide) (by decide) (by decide) (by decide)
  exact ⟨h1.mpr (by decide), h2.mpr (by decide), h3.mpr (by decide)⟩

/-- C9: a Swap fails — producing no transfer — whenever the curve
engine's `init` or `swap` reports an error, and whenever the returned
swap result has a zero deposit or a zero withdraw quantity. -/
theorem c9_swap_engine_rejections (σ : Type) (dv : DeriveVault)
    (cpInit : Nat → Nat → Nat → Nat → Option Nat → Except Unit σ)
    (cpSwap : σ → LiquidityPair → Nat → Nat → Except Unit SwapResult)
    (a : SwapAccounts) (d : SwapData) (cfg : Config) (vX vY : Nat) :
    (cpInit vX vY vX cfg.fee none = .error () →
        (Swap.process dv cpInit cpSwap a d cfg vX vY).isOk = false) ∧
    (∀ curve : σ, cpInit vX vY vX cfg.fee none = .ok curve →
        cpSwap curve (Swap.pairOf d.is_x) d.amount d.min = .error () →
        (Swap.process dv cpInit cpSwap a d cfg vX vY).isOk = false) ∧
    (∀ (curve : σ) (res : SwapResult), cpInit vX vY vX cfg.fee none = .ok curve →
        cpSwap curve (Swap.pairOf d.is_x) d.amount d.min = .ok res →
        res.deposit = 0 ∨ res.withdraw = 0 →
        (Swap.process dv cpInit cpSwap a d cfg vX vY).isOk = false) := by
  refine ⟨?_, ?_, ?_⟩
  · intro hinit
    unfold Swap.process
    rw [hinit]
    split
    · rfl
    · split
      · rfl
      · split
        · rfl
        · rfl
  · intro curve hinit hswap
    unfold Swap.process
    simp only [hinit, hswap]
    split
    · rfl
    · split
      · rfl
      · split
        · rfl
        · rfl
  · intro curve res hinit hswap hzero
    unfold Swap.process
    simp only [hinit, hswap]
    rw [if_pos hzero]
    split
    · rfl
    · split
      · rfl
      · split
        · rfl
        · rfl

/-- C9 witness: a Swap against an engine whose `init` fails is rejected. -/
theorem c9_swap_engine_rejections_witness :
    (Swap.process (σ := Unit) (fun _ _ _ => zeroPubkey)
      (fun _ _ _ _ _ => .error ()) (fun _ _ _ _ => .error ())
      ⟨zeroPubkey, zeroPubkey, zeroPubkey, zeroPubkey, zeroPubkey, zeroPubkey,
       zeroPubkey⟩
      ⟨true, 4, 0, 0⟩ ⟨1, 1, zeroPubkey, zeroPubkey, zeroPubkey, 30, 1⟩
      3 9).isOk = false :=
  (c9_swap_engine_rejections Unit (fun _ _ _ => zeroPubkey)
    (fun _ _ _ _ _ => .error ()) (fun _ _ _ _ => .error ())
    ⟨zeroPubkey, zeroPubkey, zeroPubkey, zeroPubkey, zeroPubkey, zeroPubkey,
     zeroPubkey⟩
    ⟨true, 4, 0, 0⟩ ⟨1, 1, zeroPubkey, zeroPubkey, zeroPubkey, 30, 1⟩ 3 9).1 rfl

/-- C10 witness: decoding the 76-byte all-zero payload yields the
zero-padded authority, which `set_authority` then always rejects. -/
theorem c10_zero_authority_unreachable_witness :
    Config.set_authority freshConfig zeroPubkey = .error .invalidArgument ∧
    (⟨0, 0, zeroPubkey, zeroPubkey, 0, 0, zeroPubkey⟩ :
        InitPoolData).authority = zeroPubkey :=
  ⟨c10_zero_authority_unreachable.1 freshConfig,
   c10_zero_authority_unreachable.2.2 (List.replicate 76 0) (by decide) _ rfl⟩
